import Mathlib

/-!
Shallow embedding of the endpoint-activation subsystem of the echo_service
repository (src/echo_service/web/lifetime.py together with the record shapes of
src/echo_service/web/api/endpoints/schemas/base.py), and theorems settling the
claims about it.

Modelling notes.

* Python closures defined inside a loop capture the loop VARIABLE, not its
  value at definition time.  The source file opens with a file-wide
  suppression of flake8 rule B023 (function defined in loop uses the loop
  variable), and `_activate_routes` defines `dynamic_route` inside
  `for endpoint in endpoints.scalars():` reading the free variable
  `endpoint`.  The embedding therefore represents every registered handler
  as the single closure body `dynamic_route` plus one shared binding cell
  for `endpoint` (field `endpoint_cell` of `App`); invoking a handler reads
  the cell's current value, exactly as CPython does after the loop ends.
* `app.add_route` is FastAPI's (hence Starlette's) method: it constructs a
  Route from (path, handler, methods, name) and appends it to the routing
  table.  It performs no name or path+verb collision check and cannot fail.
* `JSONResponse(content=...)` serialises its content with `json.dumps`
  before putting it on the wire; `jsonDumps` below reproduces that encoding
  for the `Optional[str]` bodies an endpoint record can store
  (`None` renders as `null`, a string is quoted and escaped).
* The repository read `await session.execute(select(Endpoint))` happens
  once, before the first `add_route`; a failure there propagates out of
  `_activate_routes` (there is no try/except), so the wrapper takes the
  repository outcome as an `Except` and propagates the error with the
  application state untouched.
-/

namespace EchoService

/-- The HTTP verb enumeration of schemas/base.py (`class Methods`): GET, POST,
PUT, PATCH, DELETE. -/
inductive Methods where
  | get
  | post
  | put
  | patch
  | delete
deriving DecidableEq

/-- An endpoint record as `_activate_routes` reads it through the ORM
accessors `get_id`, `get_path`, `get_verb`, `get_code`, `get_headers`,
`get_body`.  Field shapes follow schemas/base.py: `id: str`, `path: str`,
`verb: Methods`, `response.code: int`, `response.headers:
Optional[Dict[str, str]]`, `response.body: Optional[str]`. -/
structure Endpoint where
  get_id : String
  get_path : String
  get_verb : Methods
  get_code : Nat
  get_headers : Option (List (String × String))
  get_body : Option String
deriving DecidableEq

/-- An incoming HTTP request as seen by a handler (`req: Request`): method,
path, headers and body.  `dynamic_route` never reads any of these fields. -/
structure Request where
  method : String
  path : String
  headers : List (String × String)
  body : String
deriving DecidableEq

/-- A `fastapi.responses.JSONResponse` after construction: the status code,
the header mapping passed in, and the body bytes produced by serialising the
content with `json.dumps`. -/
structure JSONResponse where
  status_code : Nat
  headers : Option (List (String × String))
  content_rendered : String
deriving DecidableEq

/-- Lower-case hexadecimal digit, used for JSON control-character escapes. -/
def hexDigit (n : Nat) : Char :=
  if n < 10 then Char.ofNat (48 + n) else Char.ofNat (87 + n)

/-- How `json.dumps` renders one character inside a string literal:
quote and backslash are escaped, the usual control characters get their
short escapes, remaining control characters become a \u00xx escape, and
every other character is emitted as itself (Starlette passes
ensure_ascii=False). -/
def jsonEscapeChar (c : Char) : String :=
  if c = Char.ofNat 34 then "\\\""
  else if c = Char.ofNat 92 then "\\\\"
  else if c = Char.ofNat 10 then "\\n"
  else if c = Char.ofNat 9 then "\\t"
  else if c = Char.ofNat 13 then "\\r"
  else if c = Char.ofNat 8 then "\\b"
  else if c = Char.ofNat 12 then "\\f"
  else if c.toNat < 32 then
    "\\u00" ++ String.singleton (hexDigit (c.toNat / 16))
      ++ String.singleton (hexDigit (c.toNat % 16))
  else String.singleton c

/-- `json.dumps` on a Python string: a quoted, escaped JSON string literal. -/
def jsonDumpsString (s : String) : String :=
  "\"" ++ String.join (s.data.map jsonEscapeChar) ++ "\""

/-- `json.dumps` on the `Optional[str]` body an endpoint record stores:
`None` renders as `null`, a string as a quoted JSON string literal.  This is
the rendering `JSONResponse.render` applies to `content`. -/
def jsonDumps : Option String → String
  | none => "null"
  | some s => jsonDumpsString s

/-- The closure bodies the source defines for dynamic routes.  There is
exactly one: `dynamic_route` of `_activate_routes`
(src/echo_service/web/lifetime.py lines 56-61).  Every registered handler is
this body together with the shared late-bound binding of `endpoint`. -/
inductive HandlerCode where
  | dynamic_route
deriving DecidableEq

/-- One entry of the routing table, as Starlette's `Route` stores it:
path, the handler, the allowed methods and the route name. -/
structure Route where
  path : String
  handler : HandlerCode
  methods : List Methods
  name : String
deriving DecidableEq

/-- The FastAPI application state the activation subsystem touches: the
router's routing table, and the binding cell of the loop variable
`endpoint` that every `dynamic_route` closure reads (Python closures in a
loop share the variable, which is why the source carries a file-wide
flake8 B023 suppression).  Before the loop has run the cell is unbound. -/
structure App where
  routes : List Route
  endpoint_cell : Option Endpoint
deriving DecidableEq

/-- Modelled from the spec: `make_endpoint_name` is imported from
src/echo_service/web/api/endpoints/utils.py, a file that is not among the
provided sources; per the spec's Route Name Generator contract it is a pure,
deterministic function of the id that is collision-free for distinct ids,
obtained by prefixing the id with a fixed namespace token. -/
def make_endpoint_name (id : String) : String :=
  "endpoint_" ++ id

/-- FastAPI's `app.add_route(path, handler, methods=..., name=...)`:
constructs a Route and appends it to the routing table.  Starlette performs
no name or path+verb collision check here; registration always succeeds. -/
def add_route (app : App) (path : String) (handler : HandlerCode)
    (methods : List Methods) (name : String) : App :=
  { app with routes := app.routes ++ [⟨path, handler, methods, name⟩] }

/-- The body of the `dynamic_route` closure evaluated against a value of
`endpoint`: build a `JSONResponse` whose content is the record's body
(JSON-serialised on the wire), whose headers are the record's headers and
whose status code is the record's code.  The request argument is never
read. -/
def dynamic_route (endpoint : Endpoint) (req : Request) : JSONResponse :=
  { status_code := endpoint.get_code
    headers := endpoint.get_headers
    content_rendered := jsonDumps endpoint.get_body }

/-- Invoking a registered handler against the application state: the closure
body runs with the CURRENT value of the shared `endpoint` binding (late
binding).  If the loop never bound `endpoint`, the closure body would raise
a NameError, modelled as `none`. -/
def invoke_handler (app : App) (h : HandlerCode) (req : Request) :
    Option JSONResponse :=
  match h, app.endpoint_cell with
  | HandlerCode.dynamic_route, some ep => some (dynamic_route ep req)
  | HandlerCode.dynamic_route, none => none

/-- The `for endpoint in endpoints.scalars():` loop of `_activate_routes`
(src/echo_service/web/lifetime.py lines 54-74): each iteration rebinds the
shared `endpoint` variable to the next record, then registers the
`dynamic_route` closure under (record path, [record verb],
make_endpoint_name(record id)). -/
def activate_loop : List Endpoint → App → App
  | [], app => app
  | ep :: rest, app =>
      activate_loop rest
        (add_route { app with endpoint_cell := some ep }
          ep.get_path HandlerCode.dynamic_route [ep.get_verb]
          (make_endpoint_name ep.get_id))

/-- The repository failure of the spec's error taxonomy: the
`await session.execute(select(Endpoint))` call failed. -/
inductive StorageUnavailable where
  | storage_unavailable
deriving DecidableEq

/-- `_activate_routes` (src/echo_service/web/lifetime.py lines 46-74): read
all endpoint records from the repository, then run the registration loop.
The read happens before the first `add_route`; the function has no
try/except, so a repository failure propagates to the caller (the startup
hook) with the application state untouched.  The second component is the
propagated exception, `none` when activation ran to completion. -/
def _activate_routes (repo : Except StorageUnavailable (List Endpoint))
    (app : App) : App × Option StorageUnavailable :=
  match repo with
  | Except.error e => (app, some e)
  | Except.ok endpoints => (activate_loop endpoints app, none)

/-- Router dispatch, first-match: find the first route whose path equals the
request path and whose method set contains the verb (Starlette scans
`app.routes` in registration order). -/
def find_route_for (app : App) (path : String) (verb : Methods) :
    Option Route :=
  app.routes.find? (fun r => r.path == path && r.methods.contains verb)

/-- Dispatch a request to the activated application: route lookup by
(path, verb), then invocation of the matched route's handler. -/
def dispatch (app : App) (path : String) (verb : Methods) (req : Request) :
    Option JSONResponse :=
  match find_route_for app path verb with
  | some r => invoke_handler app r.handler req
  | none => none

/-- The per-registration failure of the spec's error taxonomy, carrying the
id of the record whose registration conflicted. -/
structure RegistrationConflict where
  id : String
deriving DecidableEq

/-- The spec's activation summary: how many records were registered and the
accumulated conflicts. -/
structure ActivationResult where
  registered : Nat
  failures : List RegistrationConflict
deriving DecidableEq

/-- Modelled from the spec, for comparison with the code: the Host Router
interface register(path, methods, handler, name) returning Result of Unit
or RegistrationConflict.  It reports a conflict when an existing route has
the same name or the same path with an overlapping method set; otherwise it
appends the route.  The code's router (FastAPI `add_route`) implements no
such check. -/
def spec_register (routes : List Route) (path : String)
    (handler : HandlerCode) (methods : List Methods) (name : String)
    (id : String) : Except RegistrationConflict (List Route) :=
  if routes.any (fun r =>
      r.name == name || (r.path == path && methods.any r.methods.contains))
  then Except.error ⟨id⟩
  else Except.ok (routes ++ [⟨path, handler, methods, name⟩])

/-- Modelled from the spec, for comparison with the code: the Route
Activator's partial-failure semantics — register each record through the
conflict-reporting router, skip and record a RegistrationConflict on
failure, continue with the rest, and return the routing table together with
ActivationResult(registered count, accumulated failures).  The code's
`_activate_routes` implements none of this. -/
def spec_activate : List Endpoint → List Route →
    List Route × ActivationResult
  | [], routes => (routes, ⟨0, []⟩)
  | ep :: rest, routes =>
      match spec_register routes ep.get_path HandlerCode.dynamic_route
          [ep.get_verb] (make_endpoint_name ep.get_id) ep.get_id with
      | Except.ok routes2 =>
          let out := spec_activate rest routes2
          (out.1, ⟨out.2.registered + 1, out.2.failures⟩)
      | Except.error c =>
          let out := spec_activate rest routes
          (out.1, ⟨out.2.registered, c :: out.2.failures⟩)

/-- The Route value `activate_loop` registers for one record. -/
def route_of (ep : Endpoint) : Route :=
  ⟨ep.get_path, HandlerCode.dynamic_route, [ep.get_verb],
    make_endpoint_name ep.get_id⟩

/-- Record R1 of the spec's closure-capture test: id a, code 201, body A. -/
def demoR1 : Endpoint :=
  ⟨"a", "/r1", Methods.get, 201, none, some "A"⟩

/-- Record R2 of the spec's closure-capture test: id b, code 404, body B. -/
def demoR2 : Endpoint :=
  ⟨"b", "/r2", Methods.get, 404, none, some "B"⟩

/-- An application with an empty routing table, before activation. -/
def app0 : App := ⟨[], none⟩

/-- A concrete request; its content is irrelevant to every handler. -/
def demoReq : Request := ⟨"GET", "/r1", [], ""⟩

/-- The application after activating the batch [R1, R2]. -/
def demoApp : App := activate_loop [demoR1, demoR2] app0

/-- Two records with distinct ids but the same (path, verb) pair, the
conflict scenario of the spec's partial-failure semantics. -/
def confA : Endpoint := ⟨"1", "/dup", Methods.get, 200, none, some "x"⟩

/-- Second record of the conflict scenario: same path and verb as confA. -/
def confB : Endpoint := ⟨"2", "/dup", Methods.get, 500, none, some "y"⟩

/-- The end-to-end record of the spec: GET /ping returning 200 pong. -/
def pongEp : Endpoint := ⟨"e1", "/ping", Methods.get, 200, none, some "pong"⟩

/-- The registration loop only appends: the routing table after the loop is
the old table followed by one route per record, in batch order. -/
theorem activate_loop_routes (eps : List Endpoint) (app : App) :
    (activate_loop eps app).routes = app.routes ++ eps.map route_of := by
  induction eps generalizing app with
  | nil => simp [activate_loop]
  | cons ep rest ih =>
      simp [activate_loop, add_route, ih, route_of, List.append_assoc]

/-- After the loop runs over a batch whose last record is `ep`, the shared
`endpoint` binding holds `ep`. -/
theorem activate_loop_cell (eps : List Endpoint) (app : App) (ep : Endpoint)
    (h : eps.getLast? = some ep) :
    (activate_loop eps app).endpoint_cell = some ep := by
  induction eps generalizing app with
  | nil => simp at h
  | cons e rest ih =>
      cases rest with
      | nil =>
          simp [List.getLast?] at h
          simp [activate_loop, add_route, h]
      | cons e2 rest2 =>
          have h2 : (e2 :: rest2).getLast? = some ep := h
          have step :
              activate_loop (e :: e2 :: rest2) app
                = activate_loop (e2 :: rest2)
                    (add_route { app with endpoint_cell := some e }
                      e.get_path HandlerCode.dynamic_route [e.get_verb]
                      (make_endpoint_name e.get_id)) := rfl
          rw [step]
          exact ih _ h2

/-- Appending the same string on the left is cancellative. -/
theorem string_append_left_cancel (s a b : String)
    (h : s ++ a = s ++ b) : a = b := by
  cases s with
  | mk sd =>
    cases a with
    | mk ad =>
      cases b with
      | mk bd =>
        have hd : sd ++ ad = sd ++ bd := congrArg String.data h
        have : ad = bd := List.append_cancel_left hd
        simp [this]

/-- C1: evaluation at the failing input — after activating the batch
containing R1 (id a, code 201, body A) and R2 (id b, code 404, body B),
dispatching R1's (path, verb) returns R2's response (404 with JSON body B),
and so does dispatching R2's.  The claimed by-value capture does not hold in
the code: every registered handler reads the shared `endpoint` binding,
which after the loop holds the last record. -/
theorem C1_capture_bug_eval :
    dispatch demoApp "/r1" Methods.get demoReq
      = some { status_code := 404, headers := none,
               content_rendered := "\"B\"" }
    ∧ dispatch demoApp "/r2" Methods.get demoReq
      = some { status_code := 404, headers := none,
               content_rendered := "\"B\"" }
    ∧ demoR1.get_code = 201 ∧ demoR1.get_body = some "A" := by
  decide

/-- C2 counterexample: the handler registered for R1 does not return R1's
own captured response — dispatching R1's (path, verb) on the activated demo
application yields a response different from (R1.code, R1.headers,
json R1.body). -/
theorem C2_counterexample :
    dispatch demoApp "/r1" Methods.get demoReq
      ≠ some { status_code := demoR1.get_code, headers := demoR1.get_headers,
               content_rendered := jsonDumps demoR1.get_body } := by
  decide

/-- C2 amended: for every batch whose last record is lastEp, every produced
handler returns exactly lastEp's (status, headers, JSON-rendered body) —
the final value of the shared loop binding — and the request's content never
influences the response: two arbitrary requests receive identical
responses. -/
theorem C2_amended_handler_purity (eps : List Endpoint) (app : App)
    (lastEp : Endpoint) (req req2 : Request)
    (h : eps.getLast? = some lastEp) :
    invoke_handler (activate_loop eps app) HandlerCode.dynamic_route req
      = some { status_code := lastEp.get_code, headers := lastEp.get_headers,
               content_rendered := jsonDumps lastEp.get_body }
    ∧ invoke_handler (activate_loop eps app) HandlerCode.dynamic_route req
      = invoke_handler (activate_loop eps app) HandlerCode.dynamic_route
          req2 := by
  have hc := activate_loop_cell eps app lastEp h
  constructor
  · simp [invoke_handler, hc, dynamic_route]
  · simp [invoke_handler, hc, dynamic_route]

/-- Witness for C2 amended at the concrete batch [R1, R2] with a garbage
request. -/
theorem C2_amended_witness :
    invoke_handler (activate_loop [demoR1, demoR2] app0)
        HandlerCode.dynamic_route demoReq
      = some { status_code := demoR2.get_code, headers := demoR2.get_headers,
               content_rendered := jsonDumps demoR2.get_body }
    ∧ invoke_handler (activate_loop [demoR1, demoR2] app0)
        HandlerCode.dynamic_route demoReq
      = invoke_handler (activate_loop [demoR1, demoR2] app0)
        HandlerCode.dynamic_route ⟨"POST", "/junk", [], "garbage"⟩ :=
  C2_amended_handler_purity [demoR1, demoR2] app0 demoR2 demoReq
    ⟨"POST", "/junk", [], "garbage"⟩ (by decide)

/-- C3 counterexample: on a batch of two records sharing (path, verb), the
spec's partial-failure activator registers one route and accumulates one
RegistrationConflict for the second record, but the code appends both
routes — it detects no conflict and fails no registration. -/
theorem C3_counterexample :
    (activate_loop [confA, confB] app0).routes.length = 2
    ∧ (spec_activate [confA, confB] []).2.registered = 1
    ∧ (spec_activate [confA, confB] []).2.failures = [⟨"2"⟩]
    ∧ (2 : Nat) ≠ 1 := by
  decide

/-- C3 amended: the code performs no conflict detection at all — for every
batch, every record's route is appended unconditionally (FastAPI's
`add_route` checks neither names nor path+verb pairs), so activation adds
exactly one route per record, reports no per-record failure, and returns no
activation summary (the only error channel is the repository failure, here
`none`). -/
theorem C3_amended_no_conflict_detection (eps : List Endpoint) (app : App) :
    ((_activate_routes (Except.ok eps) app).1).routes.length
      = app.routes.length + eps.length
    ∧ (_activate_routes (Except.ok eps) app).2 = none := by
  constructor
  · simp [_activate_routes, activate_loop_routes]
  · rfl

/-- C4: when the repository read fails with StorageUnavailable, activation
registers nothing — the application state, its routing table included, is
returned unchanged — and the error propagates to the caller. -/
theorem C4_storage_unavailable_atomic (e : StorageUnavailable) (app : App) :
    (_activate_routes (Except.error e) app).1 = app
    ∧ (_activate_routes (Except.error e) app).2 = some e :=
  ⟨rfl, rfl⟩

/-- C5: for a batch of N records with pairwise-distinct generated route
names and pairwise-distinct (path, verb) pairs, activation registers exactly
N routes and signals no failure. -/
theorem C5_conflict_free_count (eps : List Endpoint) (app : App)
    (hnames : (eps.map (fun ep => make_endpoint_name ep.get_id)).Nodup)
    (hpv : (eps.map (fun ep => (ep.get_path, ep.get_verb))).Nodup) :
    ((_activate_routes (Except.ok eps) app).1).routes.length
      = app.routes.length + eps.length
    ∧ (_activate_routes (Except.ok eps) app).2 = none := by
  constructor
  · simp [_activate_routes, activate_loop_routes]
  · rfl

/-- Witness for C5 at the conflict-free two-record batch [R1, R2]. -/
theorem C5_witness :
    ((_activate_routes (Except.ok [demoR1, demoR2]) app0).1).routes.length
      = app0.routes.length + [demoR1, demoR2].length
    ∧ (_activate_routes (Except.ok [demoR1, demoR2]) app0).2 = none :=
  C5_conflict_free_count [demoR1, demoR2] app0 (by decide) (by decide)

/-- C6: the route-name generator is a pure Lean function (hence
deterministic), and distinct ids yield distinct route names. -/
theorem C6_make_endpoint_name_injective (a b : String) (h : a ≠ b) :
    make_endpoint_name a ≠ make_endpoint_name b := by
  intro heq
  exact h (string_append_left_cancel "endpoint_" a b heq)

/-- Witness for C6 at the distinct ids a and b. -/
theorem C6_witness :
    make_endpoint_name "a" ≠ make_endpoint_name "b" :=
  C6_make_endpoint_name_injective "a" "b" (by decide)

/-- C7 counterexample: activating the one-record batch [R1] twice against
the same application appends R1's route a second time and signals nothing,
whereas the claim demands a RegistrationConflict for every record on the
second call (the spec's conflict-checking router would indeed report one,
third conjunct) — the code's router appends unchecked. -/
theorem C7_counterexample :
    ((_activate_routes (Except.ok [demoR1])
        ((_activate_routes (Except.ok [demoR1]) app0).1)).1).routes.length = 2
    ∧ (_activate_routes (Except.ok [demoR1])
        ((_activate_routes (Except.ok [demoR1]) app0).1)).2 = none
    ∧ (spec_activate [demoR1]
        ((_activate_routes (Except.ok [demoR1]) app0).1).routes).2.failures
      = [⟨"a"⟩]
    ∧ (2 : Nat) ≠ 1 := by
  decide

/-- C7 amended: a second activation of the same batch against the unchanged
router reports no conflict at all — it appends every record's route again,
leaving two routes per record in the table (the earlier registration
shadows the later one at dispatch). -/
theorem C7_amended_reregistration (eps : List Endpoint) (app : App) :
    ((_activate_routes (Except.ok eps)
        ((_activate_routes (Except.ok eps) app).1)).1).routes.length
      = app.routes.length + 2 * eps.length
    ∧ (_activate_routes (Except.ok eps)
        ((_activate_routes (Except.ok eps) app).1)).2 = none := by
  refine ⟨?_, rfl⟩
  simp [_activate_routes, activate_loop_routes]
  omega

/-- C8: every route registered by one activation call carries the one
closure body reading the shared `endpoint` binding; after the loop that
binding holds the batch's last record, so invoking any registered route's
handler returns the last record's (status, headers, JSON-rendered body). -/
theorem C8_shared_late_binding (eps : List Endpoint) (app : App)
    (lastEp : Endpoint) (req : Request) (r : Route)
    (hlast : eps.getLast? = some lastEp)
    (hr : r ∈ (activate_loop eps app).routes) :
    (activate_loop eps app).endpoint_cell = some lastEp
    ∧ invoke_handler (activate_loop eps app) r.handler req
      = some { status_code := lastEp.get_code, headers := lastEp.get_headers,
               content_rendered := jsonDumps lastEp.get_body } := by
  have hc := activate_loop_cell eps app lastEp hlast
  refine ⟨hc, ?_⟩
  cases hh : r.handler with
  | dynamic_route => simp [invoke_handler, hc, dynamic_route]

/-- Witness for C8 at the batch [R1, R2], invoking the route registered for
R1: it serves R2's response. -/
theorem C8_witness :
    (activate_loop [demoR1, demoR2] app0).endpoint_cell = some demoR2
    ∧ invoke_handler (activate_loop [demoR1, demoR2] app0)
        (route_of demoR1).handler demoReq
      = some { status_code := demoR2.get_code, headers := demoR2.get_headers,
               content_rendered := jsonDumps demoR2.get_body } :=
  C8_shared_late_binding [demoR1, demoR2] app0 demoR2 demoReq
    (route_of demoR1) (by decide) (by decide)

/-- C9: the handler puts the stored body on the wire through JSON
serialisation — for a record whose stored body is the plain string pong, the
rendered body is the quoted JSON string and not the raw string itself. -/
theorem C9_body_json_encoded (ep : Endpoint) (req : Request)
    (hb : ep.get_body = some "pong") :
    (dynamic_route ep req).content_rendered = jsonDumps ep.get_body
    ∧ (dynamic_route ep req).content_rendered = "\"pong\""
    ∧ (dynamic_route ep req).content_rendered ≠ "pong" := by
  refine ⟨rfl, ?_, ?_⟩
  · rw [show (dynamic_route ep req).content_rendered
        = jsonDumps ep.get_body from rfl, hb]
    decide
  · rw [show (dynamic_route ep req).content_rendered
        = jsonDumps ep.get_body from rfl, hb]
    decide

/-- Witness for C9 at the spec's end-to-end record (GET /ping, body
pong). -/
theorem C9_witness :
    (dynamic_route pongEp demoReq).content_rendered
      = jsonDumps pongEp.get_body
    ∧ (dynamic_route pongEp demoReq).content_rendered = "\"pong\""
    ∧ (dynamic_route pongEp demoReq).content_rendered ≠ "pong" :=
  C9_body_json_encoded pongEp demoReq (by decide)

/-- C10: activation only appends to the routing table — the table after the
call is exactly the old table followed by the batch's routes in order, so
pre-existing routes are neither removed nor modified — and running the loop
on an empty batch leaves the application state exactly unchanged. -/
theorem C10_append_only_frame (eps : List Endpoint) (app : App) :
    (activate_loop eps app).routes = app.routes ++ eps.map route_of
    ∧ activate_loop [] app = app :=
  ⟨activate_loop_routes eps app, rfl⟩

end EchoService
